import Mathlib

/-!
Formal model of the nanobot agent runtime, embedded from the Python
sources under src/nanobot: the session store and its structured-context
builder (session/manager.py), the task-list updater and turn loop of the
agent engine (agent/loop.py), the sync HTTP channel (channels/api.py)
and the gateway tool proxy (agent/tools/gateway.py).

Modelling conventions, used throughout:
* JSON values (the result of json.loads) are the inductive `J` below;
  numbers are modelled as integers (the code under verification only
  manipulates integral numbers) and objects as association lists with
  the unique-key discipline of Python dicts.
* datetime values are modelled as integers; datetime.isoformat and
  datetime.fromisoformat round trip, and isoformat strings are always
  nonempty (hence truthy), so a persisted timestamp is modelled as the
  raw integer and the Python truthiness test on the persisted string
  reduces to presence of the field.
* Code that raises inside a try block whose except handler abandons the
  computation is modelled with Option, none being the exception path.
-/

namespace Nanobot

/-- JSON values as produced by json.loads. -/
inductive J where
  | null
  | bool (b : Bool)
  | num (n : Int)
  | str (s : String)
  | arr (elems : List J)
  | obj (fields : List (String × J))

/-- Python truthiness of a JSON value (bool(x)). -/
def pyTruthy : J → Bool
  | .null => false
  | .bool b => b
  | .num n => n != 0
  | .str s => !s.isEmpty
  | .arr xs => !xs.isEmpty
  | .obj kvs => !kvs.isEmpty

/-- A single-quote character, written via its code point. -/
def sq : String := (Char.ofNat 39).toString

mutual

/-- Python repr() of a JSON-derived value (quote-escaping corners of
repr are not modelled; no claim depends on them). -/
def pyRepr : J → String
  | .null => "None"
  | .bool true => "True"
  | .bool false => "False"
  | .num n => toString n
  | .str s => sq ++ s ++ sq
  | .arr xs => "[" ++ String.intercalate ", " (pyReprList xs) ++ "]"
  | .obj kvs => "\x7b" ++ String.intercalate ", " (pyReprFields kvs) ++ "\x7d"

/-- The repr of each element of a JSON array. -/
def pyReprList : List J → List String
  | [] => []
  | x :: xs => pyRepr x :: pyReprList xs

/-- The repr of each key-value pair of a JSON object. -/
def pyReprFields : List (String × J) → List String
  | [] => []
  | (k, v) :: kvs => (sq ++ k ++ sq ++ ": " ++ pyRepr v) :: pyReprFields kvs

end

/-- Python str() of a JSON-derived value: a string is itself, anything
else falls back to repr (for None, booleans, numbers this matches
CPython exactly). -/
def pyStr : J → String
  | .str s => s
  | v => pyRepr v

/-! ## Session persistence (src/nanobot/session/manager.py)

SessionManager.save writes one JSONL line per record: first the
metadata line, then each message. SessionManager._load parses the lines
back. json.dumps emits a single nonempty line per record and
json.loads inverts it, so the file is modelled as the list of its line
values. save and _load resolve the file path with the same
_get_session_path function, so loading the saved key reads exactly the
written lines. -/

/-- A session as held in memory (class Session, fields used by
persistence). messages is list[dict] in the source; metadata is a dict
but _load can in general produce any JSON value for it, so both sides
are modelled as J. The key is omitted: it only selects the file path. -/
structure SessionP where
  messages : List J
  createdAt : Int
  updatedAt : Int
  metadata : J

/-- The SessionManager.save output: the metadata line followed by the messages
(manager.py lines 242-254). -/
def saveLines (s : SessionP) : List J :=
  J.obj [("_type", J.str "metadata"),
         ("created_at", J.num s.createdAt),
         ("updated_at", J.num s.updatedAt),
         ("metadata", s.metadata)]
  :: s.messages

/-- One iteration of the line loop of SessionManager._load
(manager.py lines 215-226). State: (messages so far, metadata,
created_at). none models an exception inside the try (data.get on a
non-dict line, or fromisoformat of a truthy non-timestamp), which the
outer except turns into a failed load. A line whose _type field is not
the string "metadata" compares unequal and is treated as a message. -/
def loadStep (st : List J × J × Option Int) (line : J) :
    Option (List J × J × Option Int) :=
  match line with
  | .obj kvs =>
    match kvs.lookup "_type" with
    | some (.str t) =>
      if t = "metadata" then
        match kvs.lookup "created_at" with
        | none => some (st.1, (kvs.lookup "metadata").getD (J.obj []), none)
        | some (.num c) =>
          some (st.1, (kvs.lookup "metadata").getD (J.obj []), some c)
        | some v =>
          if pyTruthy v then none
          else some (st.1, (kvs.lookup "metadata").getD (J.obj []), none)
      else some (st.1 ++ [line], st.2.1, st.2.2)
    | _ => some (st.1 ++ [line], st.2.1, st.2.2)
  | _ => none

/-- The SessionManager._load fold over the parsed lines of the session file
(manager.py lines 202-236). loadTime is the ambient datetime.now() of
the loading process: the Session constructor defaults updated_at to it,
and created_at falls back to it when the file recorded none. -/
def loadLines (lines : List J) (loadTime : Int) : Option SessionP :=
  match lines.foldlM loadStep ([], J.obj [], none) with
  | none => none
  | some (msgs, md, created) =>
    some { messages := msgs, createdAt := created.getD loadTime,
           updatedAt := loadTime, metadata := md }

/-- A message record is an object that does not masquerade as the
metadata line: _load treats any line whose _type field equals
"metadata" as a metadata line. Every record the system itself writes
(role, content, timestamp, tool fields) satisfies this. -/
def msgLineOk : J → Bool
  | .obj kvs =>
    match kvs.lookup "_type" with
    | some (.str t) => t != "metadata"
    | _ => true
  | _ => false

theorem loadStep_msg (st : List J × J × Option Int) (m : J)
    (h : msgLineOk m = true) :
    loadStep st m = some (st.1 ++ [m], st.2.1, st.2.2) := by
  cases m with
  | obj kvs =>
    simp only [loadStep]
    cases hl : kvs.lookup "_type" with
    | none => rfl
    | some v =>
      cases v with
      | str t =>
        have ht : t ≠ "metadata" := by
          simp only [msgLineOk, hl] at h
          simpa using h
        simp [ht]
      | null => rfl
      | bool b => rfl
      | num n => rfl
      | arr xs => rfl
      | obj f => rfl
  | null => simp [msgLineOk] at h
  | bool b => simp [msgLineOk] at h
  | num n => simp [msgLineOk] at h
  | str s => simp [msgLineOk] at h
  | arr xs => simp [msgLineOk] at h

theorem foldlM_loadStep_msgs (msgs : List J)
    (h : ∀ m ∈ msgs, msgLineOk m = true) :
    ∀ (acc : List J) (md : J) (cr : Option Int),
    List.foldlM loadStep (acc, md, cr) msgs = some (acc ++ msgs, md, cr) := by
  induction msgs with
  | nil => intro acc md cr; simp [List.foldlM]
  | cons m rest ih =>
    intro acc md cr
    have hm : msgLineOk m = true := h m (List.mem_cons_self m rest)
    have hrest : ∀ x ∈ rest, msgLineOk x = true :=
      fun x hx => h x (List.mem_cons_of_mem m hx)
    simp only [List.foldlM, loadStep_msg (acc, md, cr) m hm]
    show List.foldlM loadStep (acc ++ [m], md, cr) rest =
      some (acc ++ m :: rest, md, cr)
    rw [ih hrest (acc ++ [m]) md cr]
    simp

/-- Round trip of save followed by load, for sessions whose message
records do not collide with the metadata marker. -/
theorem loadLines_saveLines (s : SessionP) (t : Int)
    (h : ∀ m ∈ s.messages, msgLineOk m = true) :
    loadLines (saveLines s) t =
      some { messages := s.messages, createdAt := s.createdAt,
             updatedAt := t, metadata := s.metadata } := by
  have h1 : loadStep ([], J.obj [], none)
      (J.obj [("_type", J.str "metadata"), ("created_at", J.num s.createdAt),
              ("updated_at", J.num s.updatedAt), ("metadata", s.metadata)]) =
      some ([], s.metadata, some s.createdAt) := rfl
  simp only [loadLines, saveLines, List.foldlM, h1]
  show (match List.foldlM loadStep ([], s.metadata, some s.createdAt)
          s.messages with
    | none => none
    | some (msgs, md, created) =>
      some { messages := msgs, createdAt := created.getD t,
             updatedAt := t, metadata := md : SessionP }) = _
  rw [foldlM_loadStep_msgs s.messages h [] s.metadata (some s.createdAt)]
  simp

/-- C2 (amended) — after save followed by load of the same key, the
messages and metadata of the loaded session equal those of the saved
one, provided no message record is an object carrying a _type field
equal to "metadata" (such a record is re-read as a second metadata
line; every record the system itself produces satisfies the proviso). -/
theorem c2_save_load_preserves (s : SessionP) (t : Int)
    (h : ∀ m ∈ s.messages, msgLineOk m = true) :
    ∃ loaded, loadLines (saveLines s) t = some loaded ∧
      loaded.messages = s.messages ∧ loaded.metadata = s.metadata :=
  ⟨_, loadLines_saveLines s t h, rfl, rfl⟩

theorem c2_save_load_preserves_witness :
    (∀ m ∈ [J.obj [("role", J.str "user"), ("content", J.str "hi")],
            J.obj [("role", J.str "assistant"), ("content", J.str "yo")]],
        msgLineOk m = true) ∧
    (∃ loaded,
      loadLines (saveLines
        { messages := [J.obj [("role", J.str "user"), ("content", J.str "hi")],
                       J.obj [("role", J.str "assistant"), ("content", J.str "yo")]],
          createdAt := 3, updatedAt := 4,
          metadata := J.obj [("task_list", J.arr [])] }) 7 = some loaded ∧
      loaded.messages = [J.obj [("role", J.str "user"), ("content", J.str "hi")],
                         J.obj [("role", J.str "assistant"), ("content", J.str "yo")]] ∧
      loaded.metadata = J.obj [("task_list", J.arr [])]) :=
  ⟨by decide, c2_save_load_preserves _ 7 (by decide)⟩

/-- C2 counterexample — a JSON-serializable session containing the
single message record {"_type": "metadata"} does not round trip: load
treats that record as a metadata line, so the loaded session has no
messages (and its metadata is reset to the empty dict). -/
theorem c2_counterexample :
    ((loadLines (saveLines
        { messages := [J.obj [("_type", J.str "metadata")]],
          createdAt := 1, updatedAt := 2,
          metadata := J.obj [("k", J.str "v")] }) 9).map
      fun l => l.messages.length) = some 0 ∧
    ([J.obj [("_type", J.str "metadata")]] : List J).length = 1 :=
  ⟨rfl, rfl⟩

/-- C10 — load restores messages, metadata and created_at from the
file, but the loaded updated_at is the time of loading (the Session
constructor default), not the persisted value. Stated for files whose
message records do not collide with the _type marker, which holds for
every file the system itself writes. -/
theorem c10_load_sets_updated_at_to_load_time (s : SessionP) (t : Int)
    (h : ∀ m ∈ s.messages, msgLineOk m = true) :
    loadLines (saveLines s) t =
      some { messages := s.messages, createdAt := s.createdAt,
             updatedAt := t, metadata := s.metadata } :=
  loadLines_saveLines s t h

theorem c10_load_sets_updated_at_to_load_time_witness :
    (∀ m ∈ [J.obj [("role", J.str "user"), ("content", J.str "q")]],
        msgLineOk m = true) ∧
    loadLines (saveLines
        { messages := [J.obj [("role", J.str "user"), ("content", J.str "q")]],
          createdAt := 3, updatedAt := 4,
          metadata := J.obj [] }) 7 =
      some { messages := [J.obj [("role", J.str "user"), ("content", J.str "q")]],
             createdAt := 3, updatedAt := 7, metadata := J.obj [] } ∧
    (7 : Int) ≠ 4 :=
  ⟨by decide, c10_load_sets_updated_at_to_load_time _ 7 (by decide), by decide⟩

/-! ## Structured context (Session.get_structured_context,
manager.py lines 55-154) -/

/-- The timestamp field of a message record as the selection loop
distinguishes it: absent covers a missing or empty value (falsy, so the
assistant-to-user fallback applies and the window test breaks), bad a
truthy string rejected by datetime.fromisoformat, val t a timestamp
that parses to the instant t. -/
inductive TStamp where
  | absent
  | bad
  | val (t : Int)
deriving DecidableEq

/-- One entry of the tool_actions list attached to an assistant record.
The builder reads the three fields with .get and a default, so each is
optional here. -/
structure ToolAction where
  tool : Option String
  argsSummary : Option String
  outcome : Option String
deriving DecidableEq

/-- A message record, with the fields get_structured_context reads. -/
structure Msg where
  role : String
  content : String
  timestamp : TStamp
  toolActions : List ToolAction
deriving DecidableEq

/-- A candidate pair as stored in all_pairs (manager.py line 93):
(user_idx, asst_idx, user_msg, asst_msg). -/
abbrev Pair := Nat × Nat × Msg × Msg

/-- The backwards pair-collection loop (manager.py lines 94-101).
idxP1 is idx + 1, so 0 encodes the loop guard idx >= 0 failing; room is
max_pairs - len(all_pairs), so 0 encodes the other guard failing. The
fuel argument only drives structural recursion: every iteration lowers
idx by at least 1, so with fuel >= idxP1 (as allPairs passes) the
fuel-exhausted branch is unreachable. Pairs are returned in the order
appended, i.e. reverse chronological. -/
def pairWalkF (msgs : List Msg) : Nat → Nat → Nat → List Pair
  | _, 0, _ => []
  | _, _ + 1, 0 => []
  | 0, _ + 1, _ + 1 => []
  | fuel + 1, i + 1, room + 1 =>
    match msgs.get? i, msgs.get? (i - 1) with
    | some m, some mu =>
      if m.role = "assistant" ∧ 1 ≤ i ∧ mu.role = "user" then
        (i - 1, i, mu, m) :: pairWalkF msgs fuel (i - 1) room
      else pairWalkF msgs fuel i (room + 1)
    | _, _ => pairWalkF msgs fuel i (room + 1)

/-- Claim-side definition for C1: the same backwards walk with no
max_pairs cap, defining the total pair count P of the claim. -/
def pairWalkAllF (msgs : List Msg) : Nat → Nat → List Pair
  | _, 0 => []
  | 0, _ + 1 => []
  | fuel + 1, i + 1 =>
    match msgs.get? i, msgs.get? (i - 1) with
    | some m, some mu =>
      if m.role = "assistant" ∧ 1 ≤ i ∧ mu.role = "user" then
        (i - 1, i, mu, m) :: pairWalkAllF msgs fuel (i - 1)
      else pairWalkAllF msgs fuel i
    | _, _ => pairWalkAllF msgs fuel i

/-- The all_pairs collection (manager.py lines 93-101): the capped walk started at
idx = len(messages) - 1. -/
def allPairs (msgs : List Msg) (maxPairs : Nat) : List Pair :=
  pairWalkF msgs msgs.length msgs.length maxPairs

/-- The total pair count P of claim C1: the uncapped walk. -/
def totalPairs (msgs : List Msg) : Nat :=
  (pairWalkAllF msgs msgs.length msgs.length).length

/-- The timestamp used for the recency test (manager.py line 106):
the assistant timestamp, falling back to the user timestamp when the
former is falsy (missing or empty). -/
def pairTs (p : Pair) : TStamp :=
  match p.2.2.2.timestamp with
  | TStamp.absent => p.2.2.1.timestamp
  | ts => ts

/-- The recency test of manager.py lines 106-115: the extension loop
continues exactly when the timestamp is present, parses, and is at or
after the cutoff; a missing, unparseable or older timestamp breaks. -/
def withinWindow (cutoff : Int) (p : Pair) : Bool :=
  match pairTs p with
  | TStamp.val t => cutoff ≤ t
  | _ => false

/-- keep (manager.py lines 103-115): min(min_pairs, len(all_pairs)),
extended while the following candidates pass the recency test. cutoff
stands for datetime.now() - timedelta(minutes=recency_minutes). -/
def keepCount (msgs : List Msg) (minPairs maxPairs : Nat) (cutoff : Int) :
    Nat :=
  let ap := allPairs msgs maxPairs
  let k0 := min minPairs ap.length
  k0 + ((ap.drop k0).takeWhile (withinWindow cutoff)).length

/-- selected (manager.py lines 117-118): the first keep candidates, in
chronological order. -/
def selectedPairs (msgs : List Msg) (minPairs maxPairs : Nat)
    (cutoff : Int) : List Pair :=
  ((allPairs msgs maxPairs).take (keepCount msgs minPairs maxPairs cutoff)).reverse

/-- The recent_pairs rows (manager.py lines 120-123) as (role, content) rows. -/
def recentPairs (msgs : List Msg) (minPairs maxPairs : Nat)
    (cutoff : Int) : List (String × String) :=
  (selectedPairs msgs minPairs maxPairs cutoff).flatMap fun p =>
    [("user", p.2.2.1.content), ("assistant", p.2.2.2.content)]

/-- The recent_indices set (manager.py lines 126-129): the message indices
contributing to recent_pairs. -/
def recentIndices (msgs : List Msg) (minPairs maxPairs : Nat)
    (cutoff : Int) : List Nat :=
  (selectedPairs msgs minPairs maxPairs cutoff).flatMap fun p => [p.1, p.2.1]

/-- One row of tool_log (manager.py lines 142-147). -/
structure ToolLogEntry where
  timestamp : TStamp
  tool : String
  argsSummary : String
  outcome : String
deriving DecidableEq

/-- The tool_log scan (manager.py lines 135-147) before the tail slice,
keeping the index of the assistant message each entry came from: skip
indices in recent_indices, skip non-assistant roles, then emit one
entry per tool action. -/
def toolLogIndexed (msgs : List Msg) (recentIdx : List Nat) :
    List (Nat × ToolLogEntry) :=
  (msgs.enum.filter fun im =>
      !recentIdx.contains im.1 && im.2.role == "assistant").flatMap
    fun im => im.2.toolActions.map fun a =>
      (im.1, { timestamp := im.2.timestamp, tool := a.tool.getD "unknown",
               argsSummary := a.argsSummary.getD "",
               outcome := a.outcome.getD "" })

/-- Python list[-k:] as used at manager.py line 148: the last k
elements, except that k = 0 yields the whole list. -/
def lastSlice {α : Type} (k : Nat) (l : List α) : List α :=
  if k = 0 then l else l.drop (l.length - k)

/-- The tool_log result (manager.py lines 135-148). -/
def toolLog (msgs : List Msg) (recentIdx : List Nat)
    (maxToolEntries : Nat) : List ToolLogEntry :=
  lastSlice maxToolEntries ((toolLogIndexed msgs recentIdx).map Prod.snd)

/-- The structured context triple (manager.py lines 150-154). -/
structure StructuredContext where
  recent : List (String × String)
  taskList : J
  log : List ToolLogEntry

/-- The Session.get_structured_context triple (manager.py lines 55-154), with the
session metadata as a JSON object and cutoff the ambient
datetime.now() - recency window. -/
def getStructuredContext (msgs : List Msg) (metadata : List (String × J))
    (minPairs maxPairs : Nat) (cutoff : Int) (maxToolEntries : Nat) :
    StructuredContext :=
  { recent := recentPairs msgs minPairs maxPairs cutoff,
    taskList := (metadata.lookup "task_list").getD (J.arr []),
    log := toolLog msgs (recentIndices msgs minPairs maxPairs cutoff)
             maxToolEntries }

theorem pairWalkF_eq_take (msgs : List Msg) :
    ∀ fuel i room, pairWalkF msgs fuel i room =
      (pairWalkAllF msgs fuel i).take room := by
  intro fuel
  induction fuel with
  | zero =>
    intro i room
    cases i <;> cases room <;> simp [pairWalkF, pairWalkAllF]
  | succ f ih =>
    intro i room
    cases i with
    | zero => cases room <;> simp [pairWalkF, pairWalkAllF]
    | succ i =>
      cases room with
      | zero => simp [pairWalkF]
      | succ room =>
        simp only [pairWalkF, pairWalkAllF]
        cases hm : msgs.get? i with
        | none => simp [ih i (room + 1)]
        | some m =>
          cases hmu : msgs.get? (i - 1) with
          | none => simp [ih i (room + 1)]
          | some mu =>
            by_cases hc : m.role = "assistant" ∧ 1 ≤ i ∧ mu.role = "user"
            · simp [hc, List.take_succ_cons, ih (i - 1) room]
            · simp [hc, ih i (room + 1)]

theorem allPairs_length (msgs : List Msg) (maxPairs : Nat) :
    (allPairs msgs maxPairs).length = min maxPairs (totalPairs msgs) := by
  simp [allPairs, totalPairs, pairWalkF_eq_take]

theorem takeWhile_length_le {α : Type} (p : α → Bool) :
    ∀ l : List α, (l.takeWhile p).length ≤ l.length := by
  intro l
  induction l with
  | nil => simp [List.takeWhile]
  | cons a t ih =>
    simp only [List.takeWhile]
    cases hp : p a <;> simp [ih]

theorem keepCount_le_length (msgs : List Msg) (minPairs maxPairs : Nat)
    (cutoff : Int) :
    keepCount msgs minPairs maxPairs cutoff ≤
      (allPairs msgs maxPairs).length := by
  simp only [keepCount]
  have h1 := takeWhile_length_le (withinWindow cutoff)
    ((allPairs msgs maxPairs).drop
      (min minPairs (allPairs msgs maxPairs).length))
  rw [List.length_drop] at h1
  omega

theorem selectedPairs_length (msgs : List Msg) (minPairs maxPairs : Nat)
    (cutoff : Int) :
    (selectedPairs msgs minPairs maxPairs cutoff).length =
      keepCount msgs minPairs maxPairs cutoff := by
  have h := keepCount_le_length msgs minPairs maxPairs cutoff
  simp [selectedPairs, List.length_take]
  omega

theorem takeWhile_get?_pred {α : Type} (p : α → Bool) :
    ∀ (l : List α) (j : Nat), j < (l.takeWhile p).length →
      ∃ x, l[j]? = some x ∧ p x = true := by
  intro l
  induction l with
  | nil => intro j h; simp [List.takeWhile] at h
  | cons a t ih =>
    intro j h
    simp only [List.takeWhile] at h
    cases hp : p a with
    | false => simp [hp] at h
    | true =>
      simp only [hp] at h
      cases j with
      | zero => exact ⟨a, by simp, hp⟩
      | succ j =>
        simp only [List.length_cons, Nat.succ_lt_succ_iff] at h
        obtain ⟨x, hx, hpx⟩ := ih j h
        exact ⟨x, by simpa using hx, hpx⟩

/-- C1 (amended) — for every session and parameters, unconditionally:
the selected pairs never exceed max_pairs; at least
min(min_pairs, max_pairs, P) pairs are selected, P being the total pair
count of the backwards walk; and every selected pair past the first
min_pairs (counting backwards from the end, i.e. any position
j ≥ min_pairs within the kept range of the reverse-chronological
candidate list) passed the recency-window test. -/
theorem c1_pair_selection (msgs : List Msg) (minPairs maxPairs : Nat)
    (cutoff : Int) :
    (selectedPairs msgs minPairs maxPairs cutoff).length ≤ maxPairs ∧
    min minPairs (min maxPairs (totalPairs msgs)) ≤
      (selectedPairs msgs minPairs maxPairs cutoff).length ∧
    ∀ j, minPairs ≤ j → j < keepCount msgs minPairs maxPairs cutoff →
      ∃ p, (allPairs msgs maxPairs)[j]? = some p ∧
        withinWindow cutoff p = true := by
  have hlen := selectedPairs_length msgs minPairs maxPairs cutoff
  have hkle := keepCount_le_length msgs minPairs maxPairs cutoff
  have hap := allPairs_length msgs maxPairs
  refine ⟨by omega, ?_, ?_⟩
  · have : min minPairs (allPairs msgs maxPairs).length ≤
        keepCount msgs minPairs maxPairs cutoff := by
      simp only [keepCount]
      omega
    rw [hap] at this
    omega
  · intro j h1 h2
    set ap := allPairs msgs maxPairs with hapdef
    set k0 := min minPairs ap.length with hk0
    have hk0j : k0 ≤ j := le_trans (min_le_left _ _) h1
    have hjk : j - k0 < ((ap.drop k0).takeWhile (withinWindow cutoff)).length := by
      have : keepCount msgs minPairs maxPairs cutoff =
          k0 + ((ap.drop k0).takeWhile (withinWindow cutoff)).length := rfl
      omega
    obtain ⟨p, hp, hw⟩ := takeWhile_get?_pred (withinWindow cutoff)
      (ap.drop k0) (j - k0) hjk
    refine ⟨p, ?_, hw⟩
    rw [List.getElem?_drop] at hp
    rwa [Nat.add_sub_cancel' hk0j] at hp

/-- A sample session of four user/assistant exchanges with recent
timestamps, used to instantiate the structured-context theorems. -/
def demoMsgs : List Msg :=
  [{ role := "user", content := "u1", timestamp := TStamp.val 100,
     toolActions := [] },
   { role := "assistant", content := "a1", timestamp := TStamp.val 100,
     toolActions := [] },
   { role := "user", content := "u2", timestamp := TStamp.val 100,
     toolActions := [] },
   { role := "assistant", content := "a2", timestamp := TStamp.val 100,
     toolActions := [] },
   { role := "user", content := "u3", timestamp := TStamp.val 100,
     toolActions := [] },
   { role := "assistant", content := "a3", timestamp := TStamp.val 100,
     toolActions := [] },
   { role := "user", content := "u4", timestamp := TStamp.val 100,
     toolActions := [] },
   { role := "assistant", content := "a4", timestamp := TStamp.val 100,
     toolActions := [] }]

theorem c1_pair_selection_witness :
    ((selectedPairs demoMsgs 1 20 50).length ≤ 20 ∧
     min 1 (min 20 (totalPairs demoMsgs)) ≤
       (selectedPairs demoMsgs 1 20 50).length) ∧
    (1 ≤ 2 ∧ 2 < keepCount demoMsgs 1 20 50) ∧
    (∃ p, (allPairs demoMsgs 20)[2]? = some p ∧
      withinWindow 50 p = true) :=
  ⟨⟨(c1_pair_selection demoMsgs 1 20 50).1,
    (c1_pair_selection demoMsgs 1 20 50).2.1⟩,
   ⟨by decide, by decide⟩,
   (c1_pair_selection demoMsgs 1 20 50).2.2 2 (by decide) (by decide)⟩

/-- A sample session of two user/assistant exchanges with no
timestamps, used to refute claim C1 as stated. -/
def demoMsgsOld : List Msg :=
  [{ role := "user", content := "u1", timestamp := TStamp.absent,
     toolActions := [] },
   { role := "assistant", content := "a1", timestamp := TStamp.absent,
     toolActions := [] },
   { role := "user", content := "u2", timestamp := TStamp.absent,
     toolActions := [] },
   { role := "assistant", content := "a2", timestamp := TStamp.absent,
     toolActions := [] }]

/-- C1 counterexample — with min_pairs = 2 and max_pairs = 1 on a
session whose total pair count P is 2, only 1 pair is selected, below
the min(min_pairs, P) = 2 the claim promises: the candidate collection
itself stops at max_pairs, so the claim fails whenever
min_pairs > max_pairs < P. -/
theorem c1_counterexample :
    (selectedPairs demoMsgsOld 2 1 0).length = 1 ∧
    min 2 (totalPairs demoMsgsOld) = 2 := by decide

/-- C3 — every entry scanned into tool_log comes from a message index
outside recent_indices: the scan skips exactly the indices contributing
to recent_pairs. -/
theorem c3_recent_tool_log_disjoint (msgs : List Msg)
    (minPairs maxPairs : Nat) (cutoff : Int) :
    ∀ pr ∈ toolLogIndexed msgs (recentIndices msgs minPairs maxPairs cutoff),
      pr.1 ∉ recentIndices msgs minPairs maxPairs cutoff := by
  intro pr hpr
  simp only [toolLogIndexed, List.mem_flatMap] at hpr
  obtain ⟨im, him, hmem⟩ := hpr
  rw [List.mem_filter] at him
  obtain ⟨-, hcond⟩ := him
  simp only [List.mem_map] at hmem
  obtain ⟨a, -, hpr2⟩ := hmem
  rw [Bool.and_eq_true, Bool.not_eq_eq_eq_not, Bool.not_true] at hcond
  intro hmemR
  rw [← hpr2] at hmemR
  have : (recentIndices msgs minPairs maxPairs cutoff).contains im.1 = true :=
    List.elem_eq_true_of_mem hmemR
  rw [this] at hcond
  simp at hcond

/-- A sample session where an older assistant message carries a tool
action, used to instantiate the tool-log disjointness theorem. -/
def demoMsgsTools : List Msg :=
  [{ role := "user", content := "u1", timestamp := TStamp.absent,
     toolActions := [] },
   { role := "assistant", content := "a1", timestamp := TStamp.absent,
     toolActions := [{ tool := some "exec", argsSummary := some "ls",
                       outcome := some "OK" }] },
   { role := "user", content := "u2", timestamp := TStamp.absent,
     toolActions := [] },
   { role := "assistant", content := "a2", timestamp := TStamp.absent,
     toolActions := [] }]

theorem c3_recent_tool_log_disjoint_witness :
    ((1, { timestamp := TStamp.absent, tool := "exec", argsSummary := "ls",
           outcome := "OK" : ToolLogEntry }) ∈
       toolLogIndexed demoMsgsTools (recentIndices demoMsgsTools 1 20 0)) ∧
    (1, { timestamp := TStamp.absent, tool := "exec", argsSummary := "ls",
          outcome := "OK" : ToolLogEntry }).1 ∉
      recentIndices demoMsgsTools 1 20 0 :=
  ⟨by decide,
   c3_recent_tool_log_disjoint demoMsgsTools 1 20 0 _ (by decide)⟩

/-! ## Sync HTTP channel (src/nanobot/channels/api.py) -/

/-- The observable state of an asyncio.Future held in the pending map:
whether it is done (already resolved, or cancelled by an aborted /chat
handler that left its entry in place) and the result delivered to it,
if any. -/
structure Slot where
  done : Bool
  value : Option String
deriving DecidableEq

/-- Modelled from the spec: OutboundMessage (bus/events.py is not among
the sources) is the record {channel, chat_id, content, metadata{}} of
section 3; only the fields ApiChannel.send reads are kept. -/
structure OutboundMessage where
  channel : String
  chatId : String
  content : String
  metadata : List (String × J)

/-- What the send call did: skipped a non-final message, delivered
content to the popped unresolved future, or logged the no-pending /
already-done warning. -/
inductive SendAction where
  | skipped
  | delivered (content : String)
  | warned
deriving DecidableEq

/-- The ApiChannel.send transition (api.py lines 83-107). pending maps request ids
(carried in chat_id) to futures. A falsy is_final returns immediately;
otherwise dict.pop removes the chat_id entry whenever present, and the
content is delivered only if the popped future was not yet done. -/
def apiSend (pending : List (String × Slot)) (msg : OutboundMessage) :
    List (String × Slot) × SendAction :=
  if !pyTruthy ((msg.metadata.lookup "is_final").getD J.null) then
    (pending, SendAction.skipped)
  else
    match pending.lookup msg.chatId with
    | some slot =>
      let rest := pending.eraseP fun kv => kv.1 == msg.chatId
      if !slot.done then (rest, SendAction.delivered msg.content)
      else (rest, SendAction.warned)
    | none => (pending, SendAction.warned)

/-- C4 (amended) — a non-final outbound leaves the pending map
unchanged; a final outbound whose chat_id has an unresolved pending
entry delivers the content and removes the entry; a final outbound
whose chat_id is absent only logs a warning; but a final outbound whose
chat_id entry is already done also removes that entry (dict.pop runs
before the done test) while logging the warning. -/
theorem c4_api_send_effect (pending : List (String × Slot))
    (msg : OutboundMessage) :
    (pyTruthy ((msg.metadata.lookup "is_final").getD J.null) = false →
      apiSend pending msg = (pending, SendAction.skipped)) ∧
    (∀ slot, pyTruthy ((msg.metadata.lookup "is_final").getD J.null) = true →
      pending.lookup msg.chatId = some slot →
      apiSend pending msg =
        (pending.eraseP fun kv => kv.1 == msg.chatId,
         if slot.done then SendAction.warned
         else SendAction.delivered msg.content)) ∧
    (pyTruthy ((msg.metadata.lookup "is_final").getD J.null) = true →
      pending.lookup msg.chatId = none →
      apiSend pending msg = (pending, SendAction.warned)) := by
  refine ⟨fun hf => ?_, fun slot hf hl => ?_, fun hf hl => ?_⟩
  · simp [apiSend, hf]
  · cases hd : slot.done <;> simp [apiSend, hf, hl, hd]
  · simp [apiSend, hf, hl]

theorem c4_api_send_effect_witness :
    (pyTruthy ((([("is_final", J.bool true)] : List (String × J)).lookup
        "is_final").getD J.null) = true ∧
     ([("c", { done := true, value := none : Slot })] :
        List (String × Slot)).lookup "c" =
       some { done := true, value := none }) ∧
    apiSend [("c", { done := true, value := none })]
        { channel := "api", chatId := "c", content := "hi",
          metadata := [("is_final", J.bool true)] } =
      ([], if ({ done := true, value := none : Slot }).done
           then SendAction.warned
           else SendAction.delivered "hi") :=
  ⟨⟨by decide, by decide⟩,
   (c4_api_send_effect [("c", { done := true, value := none })]
      { channel := "api", chatId := "c", content := "hi",
        metadata := [("is_final", J.bool true)] }).2.1
     { done := true, value := none } (by decide) (by decide)⟩

/-- C4 counterexample — a final outbound for a pending entry whose
future is already done (e.g. left behind by a cancelled /chat handler)
does change the pending map: the entry is popped even though nothing is
delivered and only a warning is logged. -/
theorem c4_counterexample :
    (apiSend [("c", { done := true, value := none })]
        { channel := "api", chatId := "c", content := "hi",
          metadata := [("is_final", J.bool true)] }).1 = [] ∧
    ([("c", { done := true, value := none : Slot })] :
        List (String × Slot)) ≠ [] ∧
    (apiSend [("c", { done := true, value := none })]
        { channel := "api", chatId := "c", content := "hi",
          metadata := [("is_final", J.bool true)] }).2 =
      SendAction.warned := by
  refine ⟨?_, ?_, ?_⟩ <;> decide

/-! ## JSON serialization (json.dumps, as used by the gateway fallback
branch and the argument summaries) -/

/-- A lowercase hex digit. -/
def hexDigit (n : Nat) : Char :=
  if n < 10 then Char.ofNat (48 + n) else Char.ofNat (87 + n)

/-- Two lowercase hex digits of a byte. -/
def hexByte (n : Nat) : String :=
  (hexDigit (n / 16)).toString ++ (hexDigit (n % 16)).toString

/-- The json.dumps escaping of one character (the \\uXXXX escaping of
non-ASCII text under ensure_ascii is not modelled; no claim depends on
it). -/
def jsonEscChar (c : Char) : String :=
  if c = Char.ofNat 34 then "\\\""
  else if c = Char.ofNat 92 then "\\\\"
  else if c = Char.ofNat 10 then "\\n"
  else if c = Char.ofNat 13 then "\\r"
  else if c = Char.ofNat 9 then "\\t"
  else if c.toNat < 32 then "\\u00" ++ hexByte c.toNat
  else c.toString

/-- The json.dumps escaping of a string body. -/
def jsonEscape (s : String) : String :=
  String.join (s.data.map jsonEscChar)

mutual

/-- The json.dumps rendering with the default separators. -/
def jsonDumps : J → String
  | .null => "null"
  | .bool true => "true"
  | .bool false => "false"
  | .num n => toString n
  | .str s => "\"" ++ jsonEscape s ++ "\""
  | .arr xs => "[" ++ String.intercalate ", " (jsonDumpsList xs) ++ "]"
  | .obj kvs => "\x7b" ++ String.intercalate ", " (jsonDumpsFields kvs) ++ "\x7d"

/-- The dumps of each element of an array. -/
def jsonDumpsList : List J → List String
  | [] => []
  | x :: xs => jsonDumps x :: jsonDumpsList xs

/-- The dumps of each key-value pair of an object. -/
def jsonDumpsFields : List (String × J) → List String
  | [] => []
  | (k, v) :: kvs =>
    ("\"" ++ jsonEscape k ++ "\": " ++ jsonDumps v) :: jsonDumpsFields kvs

end

/-! ## Gateway tool (src/nanobot/agent/tools/gateway.py) -/

/-- The GatewayTool.execute dispatch on the response body
(gateway.py lines 73-91): message = data.get("message", {}) of a 2xx
response. Returns none where the Python raises (.get on a message that
is neither str nor dict), which the generic except handler turns into
an error string outside this dispatch. -/
def gatewayHandleMessage (message : J) : Option String :=
  match message with
  | .str s => some s
  | .obj kvs =>
    if pyTruthy ((kvs.lookup "pending_approval").getD J.null) then
      let rid := (kvs.lookup "request_id").getD (J.str "")
      let hint := (kvs.lookup "result").getD (J.str "This tool requires approval.")
      some (pyStr hint ++ "\n\nApproval pending — request_id: " ++ pyStr rid ++
        "\nUse the check_approval_result tool with this request_id to poll for the outcome.")
    else if pyTruthy ((kvs.lookup "success").getD J.null) then
      some (pyStr ((kvs.lookup "result").getD (J.str "")))
    else
      let c1 := (kvs.lookup "result").getD J.null
      if pyTruthy c1 then some (pyStr c1)
      else
        let c2 := (kvs.lookup "error").getD J.null
        if pyTruthy c2 then some (pyStr c2)
        else some (jsonDumps (J.obj kvs))
  | _ => none

/-- C7 — when the gateway response message object carries
pending_approval = true and request_id = R, execute returns a text
containing the substring "request_id: R" immediately followed by the
instruction to poll with the check_approval_result tool. -/
theorem c7_pending_approval_text (kvs : List (String × J)) (R : String)
    (h1 : kvs.lookup "pending_approval" = some (J.bool true))
    (h2 : kvs.lookup "request_id" = some (J.str R)) :
    ∃ pre, gatewayHandleMessage (J.obj kvs) =
      some (pre ++ "request_id: " ++ R ++
        "\nUse the check_approval_result tool with this request_id to poll for the outcome.") := by
  have hfuse : ∀ x : String,
      "\n\nApproval pending — " ++ ("request_id: " ++ x) =
      "\n\nApproval pending — request_id: " ++ x := by
    intro x
    rw [← String.append_assoc]
    rfl
  refine ⟨pyStr ((kvs.lookup "result").getD
      (J.str "This tool requires approval.")) ++
      "\n\nApproval pending — ", ?_⟩
  simp only [gatewayHandleMessage, h1, h2, Option.getD_some]
  simp [pyTruthy, pyStr, String.append_assoc, hfuse]

theorem c7_pending_approval_text_witness :
    (([("pending_approval", J.bool true), ("request_id", J.str "R1"),
       ("result", J.str "Needs approval")] :
        List (String × J)).lookup "pending_approval" = some (J.bool true)) ∧
    (([("pending_approval", J.bool true), ("request_id", J.str "R1"),
       ("result", J.str "Needs approval")] :
        List (String × J)).lookup "request_id" = some (J.str "R1")) ∧
    (∃ pre, gatewayHandleMessage (J.obj
        [("pending_approval", J.bool true), ("request_id", J.str "R1"),
         ("result", J.str "Needs approval")]) =
      some (pre ++ "request_id: " ++ "R1" ++
        "\nUse the check_approval_result tool with this request_id to poll for the outcome.")) :=
  ⟨rfl, rfl, c7_pending_approval_text _ "R1" rfl rfl⟩

/-- Python string slicing s[:n] (by code points, as Lean chars). -/
def pySlice (n : Nat) (s : String) : String := String.mk (s.data.take n)

/-- Python str.strip() with no argument: remove leading and trailing
whitespace (ASCII whitespace; the unicode classes Python also strips do
not occur in the modelled data). -/
def pyStrip (s : String) : String :=
  String.mk (((s.data.dropWhile Char.isWhitespace).reverse.dropWhile
    Char.isWhitespace).reverse)

/-! ## Memory retrieval (AgentLoop._retrieve_memories,
loop.py lines 411-477) -/

/-- The memory configuration fields the retrieval guard reads
(config/schema.py MemoryConfig); an absent config behaves as
enabled = false, and the request payload fields (auth, token, top_k)
do not influence the modelled behaviour. -/
structure MemoryCfg where
  enabled : Bool
  retrievalUrl : String

/-- The AgentLoop._retrieve_memories outcome (loop.py lines 424-477). net is the
outcome of the HTTP POST: none when the transport raised, otherwise
(status code, response body). Returns the memories value (J.str "" on
every failure path) and whether the endpoint was queried at all. The
non-dict cases after unwrapping raise on .get and are caught by the
same except that yields the empty string. -/
def retrieveMemories (cfg : MemoryCfg) (query : String)
    (net : Option (Nat × J)) : J × Bool :=
  if !cfg.enabled then (J.str "", false)
  else if cfg.retrievalUrl.isEmpty then (J.str "", false)
  else
    let stripped := pyStrip query
    if stripped.length < 5 then (J.str "", false)
    else
      match net with
      | none => (J.str "", true)
      | some (status, body) =>
        if status ≠ 200 then (J.str "", true)
        else
          let data := match body with
            | J.obj kvs =>
              match kvs.lookup "message" with
              | some inner => inner
              | none => body
            | _ => body
          match data with
          | J.obj kvs2 => ((kvs2.lookup "memories").getD (J.str ""), true)
          | _ => (J.str "", true)

/-- Count of non-whitespace characters, the measure claim C8 uses. -/
def countNonWs (s : String) : Nat :=
  (s.data.filter fun c => !c.isWhitespace).length

/-- C8 (amended) — the memory endpoint is queried only when retrieval
is enabled, a retrieval URL is configured, and the message has at least
5 characters after stripping leading and trailing whitespace; on a
transport error or a non-200 response the retrieval yields the empty
string. -/
theorem c8_memory_retrieval_guard (cfg : MemoryCfg) (query : String)
    (net : Option (Nat × J)) :
    ((retrieveMemories cfg query net).2 = true →
      cfg.enabled = true ∧ cfg.retrievalUrl.isEmpty = false ∧
        5 ≤ (pyStrip query).length) ∧
    (∀ status body, (net = none ∨ (net = some (status, body) ∧ status ≠ 200)) →
      (retrieveMemories cfg query net).1 = J.str "") := by
  constructor
  · intro hq
    by_cases he : cfg.enabled
    · by_cases hu : cfg.retrievalUrl.isEmpty
      · simp [retrieveMemories, he, hu] at hq
      · by_cases hl : (pyStrip query).length < 5
        · simp [retrieveMemories, he, hu, hl] at hq
        · exact ⟨he, by simpa using hu, by omega⟩
    · simp [retrieveMemories, he] at hq
  · intro status body hnet
    by_cases he : cfg.enabled
    · by_cases hu : cfg.retrievalUrl.isEmpty
      · simp [retrieveMemories, he, hu]
      · by_cases hl : (pyStrip query).length < 5
        · simp [retrieveMemories, he, hu, hl]
        · rcases hnet with hn | ⟨hn, hs⟩
          · simp [retrieveMemories, he, hu, hl, hn]
          · simp [retrieveMemories, he, hu, hl, hn, hs]
    · simp [retrieveMemories, he]

theorem c8_memory_retrieval_guard_witness :
    ((retrieveMemories { enabled := true, retrievalUrl := "http://m" }
        "hello world" (some (500, J.obj []))).2 = true ∧
     (some ((500 : Nat), J.obj []) = none ∨
       (some ((500 : Nat), J.obj []) = some (500, J.obj []) ∧ (500 : Nat) ≠ 200))) ∧
    (({ enabled := true, retrievalUrl := "http://m" : MemoryCfg }).enabled = true ∧
     ({ enabled := true, retrievalUrl := "http://m" : MemoryCfg }).retrievalUrl.isEmpty = false ∧
     5 ≤ (pyStrip "hello world").length) ∧
    (retrieveMemories { enabled := true, retrievalUrl := "http://m" }
        "hello world" (some (500, J.obj []))).1 = J.str "" :=
  ⟨⟨by decide, Or.inr ⟨rfl, by decide⟩⟩,
   (c8_memory_retrieval_guard { enabled := true, retrievalUrl := "http://m" }
      "hello world" (some (500, J.obj []))).1 (by decide),
   (c8_memory_retrieval_guard { enabled := true, retrievalUrl := "http://m" }
      "hello world" (some (500, J.obj []))).2 500 (J.obj [])
     (Or.inr ⟨rfl, by decide⟩)⟩

/-- C8 counterexample — the query "a   b" has only 2 non-whitespace
characters, yet the code queries the endpoint: the guard tests
len(query.strip()) >= 5, which counts interior whitespace. -/
theorem c8_counterexample :
    (retrieveMemories { enabled := true, retrievalUrl := "http://m" }
        "a   b" none).2 = true ∧
    countNonWs "a   b" = 2 := by
  constructor <;> decide

/-! ## Tool action summaries (AgentLoop._summarize_args and
_summarize_outcome, loop.py lines 653-682) -/

/-- The AgentLoop._summarize_args text (loop.py lines 653-669). Arguments are
modelled as a dict of string values, the shape every branch reads (a
non-string value in the sliced branches would raise in Python; the
message branch would format it via str). The docstring of the source
promises a maximum of 200 characters. -/
def summarizeArgs (toolName : String) (arguments : List (String × String)) :
    String :=
  if toolName = "exec" then pySlice 180 ((arguments.lookup "command").getD "")
  else if toolName = "read_file" ∨ toolName = "write_file" ∨
      toolName = "edit_file" then
    pySlice 200 ((arguments.lookup "path").getD "")
  else if toolName = "web_search" then
    pySlice 200 ((arguments.lookup "query").getD "")
  else if toolName = "web_fetch" then
    pySlice 200 ((arguments.lookup "url").getD "")
  else if toolName = "message" then
    let ch := (arguments.lookup "channel").getD ""
    let txt := pySlice 100 ((arguments.lookup "text").getD "")
    "channel=" ++ ch ++ " text=" ++ txt
  else
    let raw := jsonDumps (J.obj (arguments.map fun kv => (kv.1, J.str kv.2)))
    if raw.length > 200 then pySlice 200 raw ++ "..." else raw

/-- The AgentLoop._summarize_outcome text (loop.py lines 671-682). The
docstring of the source promises a maximum of 300 characters. -/
def summarizeOutcome (result : Option String) : String :=
  match result with
  | none => "OK: (empty)"
  | some r =>
    if r.isEmpty then "OK: (empty)"
    else
      let isError := "error".data.isPrefixOf (r.data.map Char.toLower)
      let pre := if isError then "ERROR: " else "OK: "
      let firstLine :=
        pyStrip (String.mk (r.data.takeWhile fun c => c ≠ Char.ofNat 10))
      let maxLen := 300 - pre.length
      let firstLine2 :=
        if firstLine.length > maxLen then pySlice maxLen firstLine ++ "..."
        else firstLine
      pre ++ firstLine2

set_option maxRecDepth 40000 in
/-- C9 — the code violates the claimed bounds (and its own
docstrings): a message-tool call with a 200-character channel yields a
214-character args_summary (the channel is never truncated), and a
400-character single-line result yields a 303-character outcome (the
ellipsis is appended after truncating to 300 - prefix). -/
theorem c9_summary_limits_violated :
    (summarizeArgs "message"
        [("channel", String.mk (List.replicate 200 (Char.ofNat 99))),
         ("text", "")]).length = 214 ∧
    (summarizeOutcome (some (String.mk
        (List.replicate 400 (Char.ofNat 120))))).length = 303 := by
  constructor <;> decide

/-! ## The bounded reasoning loop (AgentLoop._process_message,
loop.py lines 229-353, and the is_final marking of run, lines 139-144) -/

/-- Modelled from the spec: the LLM provider response record
(providers/base.py is not among the sources; section 6 gives the
contract {content, tool_calls, has_tool_calls, usage}). Only the fields
that drive the loop control and token accounting are kept. -/
structure LLMResponse where
  content : String
  hasToolCalls : Bool
  promptTokens : Nat
  completionTokens : Nat

/-- The while loop of _process_message (loop.py lines 235-319),
abstracted over the sequence of LLM responses: respAt k is the response
of the k-th call, 1-based. Tool execution and message-array growth are
side effects outside the loop control, which depends only on
has_tool_calls. Returns (final_content or none, iterations used, total
prompt tokens, total completion tokens). -/
def runLoopAux (respAt : Nat → LLMResponse) :
    Nat → Nat → Nat → Nat → Option String × Nat × Nat × Nat
  | 0, iter, pt, ct => (none, iter, pt, ct)
  | rem + 1, iter, pt, ct =>
    let r := respAt (iter + 1)
    if r.hasToolCalls then
      runLoopAux respAt rem (iter + 1) (pt + r.promptTokens)
        (ct + r.completionTokens)
    else
      (some r.content, iter + 1, pt + r.promptTokens, ct + r.completionTokens)

/-- The loop entered with max_iterations budget and zeroed counters. -/
def runLoop (respAt : Nat → LLMResponse) (maxIterations : Nat) :
    Option String × Nat × Nat × Nat :=
  runLoopAux respAt maxIterations 0 0 0

/-- The fixed placeholder substituted when the loop exhausts its bound
without terminal content (loop.py line 322), written with its
apostrophe via the sq character. -/
def placeholderText : String :=
  "I" ++ sq ++ "ve completed processing but have no response to give."

/-- The token-usage footer appended for display when
debug.show_token_usage is enabled (loop.py lines 341-347). -/
def usageFooter (pt ct iters : Nat) : String :=
  "\n\n---\n📊 `" ++ toString pt ++ "` in · `" ++ toString ct ++
    "` out · `" ++ toString (pt + ct) ++ "` total · `" ++ toString iters ++
    "` call" ++ (if iters != 1 then "s" else "")

/-- The tail of _process_message (loop.py lines 321-353) composed with
the is_final marking run applies before publishing (lines 139-144):
the outbound for one turn, whose content is the final content (or the
placeholder) plus the optional usage footer. -/
def processOutbound (respAt : Nat → LLMResponse) (maxIterations : Nat)
    (showTokenUsage : Bool) (channel chatId : String) : OutboundMessage :=
  let r := runLoop respAt maxIterations
  let final := r.1.getD placeholderText
  let display :=
    if showTokenUsage then final ++ usageFooter r.2.2.1 r.2.2.2 r.2.1
    else final
  { channel := channel, chatId := chatId, content := display,
    metadata := [("is_final", J.bool true)] }

theorem runLoopAux_all_tools (respAt : Nat → LLMResponse) :
    ∀ (rem iter pt ct : Nat),
    (∀ k, iter < k → k ≤ iter + rem → (respAt k).hasToolCalls = true) →
    runLoopAux respAt rem iter pt ct =
      (none, iter + rem,
       pt + ((List.range rem).map
         fun i => (respAt (iter + i + 1)).promptTokens).sum,
       ct + ((List.range rem).map
         fun i => (respAt (iter + i + 1)).completionTokens).sum) := by
  intro rem
  induction rem with
  | zero => intro iter pt ct _; simp [runLoopAux]
  | succ rem ih =>
    intro iter pt ct h
    have h1 : (respAt (iter + 1)).hasToolCalls = true :=
      h (iter + 1) (by omega) (by omega)
    have hmapP :
        (List.range rem).map
          (fun i => (respAt (iter + 1 + i + 1)).promptTokens) =
        (List.range rem).map
          ((fun i => (respAt (iter + i + 1)).promptTokens) ∘ Nat.succ) := by
      refine List.map_eq_map_iff.mpr fun i _ => ?_
      simp only [Function.comp_apply]
      have he : iter + 1 + i + 1 = iter + Nat.succ i + 1 := by omega
      rw [he]
    have hmapC :
        (List.range rem).map
          (fun i => (respAt (iter + 1 + i + 1)).completionTokens) =
        (List.range rem).map
          ((fun i => (respAt (iter + i + 1)).completionTokens) ∘ Nat.succ) := by
      refine List.map_eq_map_iff.mpr fun i _ => ?_
      simp only [Function.comp_apply]
      have he : iter + 1 + i + 1 = iter + Nat.succ i + 1 := by omega
      rw [he]
    simp only [runLoopAux, h1, if_true]
    rw [ih (iter + 1) _ _ fun k hk1 hk2 => h k (by omega) (by omega)]
    rw [List.range_succ_eq_map]
    simp only [List.map_cons, List.sum_cons, List.map_map, Nat.add_zero]
    rw [← hmapP, ← hmapC]
    simp only [Prod.mk.injEq]
    exact ⟨trivial, by omega, by omega, by omega⟩

/-- C6 (amended) — when every LLM call up to the bound returns tool
calls, the published outbound carries metadata.is_final = true and its
content is exactly the fixed placeholder when the token-usage debug
footer is off, and the placeholder followed by the footer — rendered
from the token totals accumulated over all max_iterations calls —
when it is on. -/
theorem c6_bound_exhaustion_placeholder (respAt : Nat → LLMResponse)
    (maxIterations : Nat) (showTokenUsage : Bool) (channel chatId : String)
    (h : ∀ k, 1 ≤ k → k ≤ maxIterations → (respAt k).hasToolCalls = true) :
    (processOutbound respAt maxIterations showTokenUsage
        channel chatId).metadata.lookup "is_final" = some (J.bool true) ∧
    (showTokenUsage = false →
      (processOutbound respAt maxIterations showTokenUsage
          channel chatId).content = placeholderText) ∧
    (showTokenUsage = true →
      (processOutbound respAt maxIterations showTokenUsage
          channel chatId).content =
        placeholderText ++ usageFooter
          (((List.range maxIterations).map
            fun i => (respAt (i + 1)).promptTokens).sum)
          (((List.range maxIterations).map
            fun i => (respAt (i + 1)).completionTokens).sum)
          maxIterations) := by
  have hrun : runLoop respAt maxIterations =
      (none, maxIterations,
       ((List.range maxIterations).map
         fun i => (respAt (i + 1)).promptTokens).sum,
       ((List.range maxIterations).map
         fun i => (respAt (i + 1)).completionTokens).sum) := by
    have := runLoopAux_all_tools respAt maxIterations 0 0 0
      fun k hk1 hk2 => h k (by omega) (by omega)
    simpa [runLoop] using this
  refine ⟨rfl, ?_, ?_⟩
  · intro hs
    simp [processOutbound, hrun, hs]
  · intro hs
    simp [processOutbound, hrun, hs]

theorem c6_bound_exhaustion_placeholder_witness :
    (∀ k, 1 ≤ k → k ≤ 3 →
      ((fun _ => { content := "", hasToolCalls := true, promptTokens := 7,
                   completionTokens := 3 : LLMResponse }) k).hasToolCalls
        = true) ∧
    ((processOutbound
        (fun _ => { content := "", hasToolCalls := true, promptTokens := 7,
                    completionTokens := 3 }) 3 true "telegram"
        "c1").metadata.lookup "is_final" = some (J.bool true) ∧
     ((true : Bool) = false →
       (processOutbound
          (fun _ => { content := "", hasToolCalls := true, promptTokens := 7,
                      completionTokens := 3 }) 3 true "telegram"
          "c1").content = placeholderText) ∧
     ((true : Bool) = true →
       (processOutbound
          (fun _ => { content := "", hasToolCalls := true, promptTokens := 7,
                      completionTokens := 3 }) 3 true "telegram"
          "c1").content =
         placeholderText ++ usageFooter
           (((List.range 3).map fun i =>
             ((fun _ => { content := "", hasToolCalls := true,
                          promptTokens := 7, completionTokens := 3 :
                 LLMResponse }) (i + 1)).promptTokens).sum)
           (((List.range 3).map fun i =>
             ((fun _ => { content := "", hasToolCalls := true,
                          promptTokens := 7, completionTokens := 3 :
                 LLMResponse }) (i + 1)).completionTokens).sum)
           3)) :=
  ⟨fun _ _ _ => rfl,
   c6_bound_exhaustion_placeholder
     (fun _ => { content := "", hasToolCalls := true, promptTokens := 7,
                 completionTokens := 3 }) 3 true "telegram" "c1"
     fun _ _ _ => rfl⟩

/-- C6 counterexample — with the token-usage debug footer enabled, the
outbound content on bound exhaustion is the placeholder plus the
footer, not the placeholder itself. -/
theorem c6_counterexample :
    (processOutbound
        (fun _ => { content := "", hasToolCalls := true, promptTokens := 7,
                    completionTokens := 3 }) 2 true "telegram"
        "c1").content ≠ placeholderText ∧
    (processOutbound
        (fun _ => { content := "", hasToolCalls := true, promptTokens := 7,
                    completionTokens := 3 }) 2 true "telegram"
        "c1").content = placeholderText ++ usageFooter 14 6 2 := by
  constructor <;> decide

/-! ## Task-list updater (AgentLoop._update_task_list,
loop.py lines 684-756) -/

/-- The re.search match of the greedy DOTALL pattern bracket-dot-star-bracket
(loop.py line 743): the match, when one exists, runs from the first
left square bracket of the text to the last right square bracket, and
exists iff some right bracket follows the first left bracket. -/
def extractSpan (s : String) : Option String :=
  let cs := s.data
  match cs.findIdx? (fun c => c = Char.ofNat 91) with
  | none => none
  | some i =>
    match cs.reverse.findIdx? (fun c => c = Char.ofNat 93) with
    | none => none
    | some rj =>
      let j := cs.length - 1 - rj
      if i < j then some (String.mk ((cs.drop i).take (j - i + 1)))
      else none

/-- Value of a hex digit, both cases. -/
def hexVal (c : Char) : Option Nat :=
  if c.isDigit then some (c.toNat - 48)
  else if 97 ≤ c.toNat ∧ c.toNat ≤ 102 then some (c.toNat - 87)
  else if 65 ≤ c.toNat ∧ c.toNat ≤ 70 then some (c.toNat - 55)
  else none

/-- JSON whitespace. -/
def isJsonWs (c : Char) : Bool :=
  (c == Char.ofNat 32) || (c == Char.ofNat 9) ||
    (c == Char.ofNat 10) || (c == Char.ofNat 13)

/-- Skip JSON whitespace. -/
def skipJsonWs (cs : List Char) : List Char := cs.dropWhile isJsonWs

/-- The natural number denoted by a digit run. -/
def digitsToNat (ds : List Char) : Nat :=
  ds.foldl (fun n c => n * 10 + (c.toNat - 48)) 0

/-- A nonempty digit run and the rest of the input. -/
def parseNumTail (cs : List Char) : Option (Nat × List Char) :=
  let ds := cs.takeWhile Char.isDigit
  if ds.isEmpty then none else some (digitsToNat ds, cs.drop ds.length)

/-- The JSON string body after the opening quote, with the standard
escapes; acc holds the parsed characters reversed. The fuel only
drives structural recursion (each step consumes input). -/
def parseStrBody : Nat → List Char → List Char → Option (String × List Char)
  | 0, _, _ => none
  | fuel + 1, acc, cs =>
    match cs with
    | [] => none
    | '"' :: r => some (String.mk acc.reverse, r)
    | '\\' :: e :: r =>
      match e with
      | '"' => parseStrBody fuel ('"' :: acc) r
      | '\\' => parseStrBody fuel ('\\' :: acc) r
      | '/' => parseStrBody fuel ('/' :: acc) r
      | 'n' => parseStrBody fuel (Char.ofNat 10 :: acc) r
      | 't' => parseStrBody fuel (Char.ofNat 9 :: acc) r
      | 'r' => parseStrBody fuel (Char.ofNat 13 :: acc) r
      | 'b' => parseStrBody fuel (Char.ofNat 8 :: acc) r
      | 'f' => parseStrBody fuel (Char.ofNat 12 :: acc) r
      | 'u' =>
        match r with
        | h1 :: h2 :: h3 :: h4 :: r2 =>
          match hexVal h1, hexVal h2, hexVal h3, hexVal h4 with
          | some a, some b, some c, some d =>
            parseStrBody fuel
              (Char.ofNat (((a * 16 + b) * 16 + c) * 16 + d) :: acc) r2
          | _, _, _, _ => none
        | _ => none
      | _ => none
    | c :: r => parseStrBody fuel (c :: acc) r

mutual

/-- The json.loads value grammar (as invoked at loop.py line 745),
restricted to what the modelled pipeline feeds it: integral numbers
only (float and exponent forms, and the leading-zero restriction, are
not modelled). The fuel strictly decreases on every nested call;
jsonLoads passes enough for any input. -/
def parseVal : Nat → List Char → Option (J × List Char)
  | 0, _ => none
  | fuel + 1, cs =>
    match skipJsonWs cs with
    | 'n' :: 'u' :: 'l' :: 'l' :: r => some (J.null, r)
    | 't' :: 'r' :: 'u' :: 'e' :: r => some (J.bool true, r)
    | 'f' :: 'a' :: 'l' :: 's' :: 'e' :: r => some (J.bool false, r)
    | '"' :: r => (parseStrBody (fuel + 1) [] r).map fun p => (J.str p.1, p.2)
    | '-' :: r => (parseNumTail r).map fun p => (J.num (-(p.1 : Int)), p.2)
    | c :: r =>
      if c = Char.ofNat 91 then parseArrItems fuel r
      else if c = Char.ofNat 123 then parseObjItems fuel r
      else if c.isDigit then
        (parseNumTail (c :: r)).map fun p => (J.num (p.1 : Int), p.2)
      else none
    | [] => none

/-- Array items after the opening bracket. -/
def parseArrItems : Nat → List Char → Option (J × List Char)
  | 0, _ => none
  | fuel + 1, cs =>
    match skipJsonWs cs with
    | [] => none
    | c :: r =>
      if c = Char.ofNat 93 then some (J.arr [], r)
      else
        match parseVal fuel (c :: r) with
        | none => none
        | some (v, r2) =>
          (parseArrTail fuel r2).map fun p => (J.arr (v :: p.1), p.2)

/-- Array continuation after a parsed item. -/
def parseArrTail : Nat → List Char → Option (List J × List Char)
  | 0, _ => none
  | fuel + 1, cs =>
    match skipJsonWs cs with
    | ',' :: r =>
      match parseVal fuel r with
      | none => none
      | some (v, r2) => (parseArrTail fuel r2).map fun p => (v :: p.1, p.2)
    | c :: r =>
      if c = Char.ofNat 93 then some ([], r) else none
    | [] => none

/-- Object members after the opening brace. -/
def parseObjItems : Nat → List Char → Option (J × List Char)
  | 0, _ => none
  | fuel + 1, cs =>
    match skipJsonWs cs with
    | [] => none
    | c :: r =>
      if c = Char.ofNat 125 then some (J.obj [], r)
      else
        match parseKV fuel (c :: r) with
        | none => none
        | some (kv, r2) =>
          (parseObjTail fuel r2).map fun p => (J.obj (kv :: p.1), p.2)

/-- Object continuation after a parsed member. -/
def parseObjTail : Nat → List Char → Option (List (String × J) × List Char)
  | 0, _ => none
  | fuel + 1, cs =>
    match skipJsonWs cs with
    | ',' :: r =>
      match parseKV fuel r with
      | none => none
      | some (kv, r2) => (parseObjTail fuel r2).map fun p => (kv :: p.1, p.2)
    | c :: r =>
      if c = Char.ofNat 125 then some ([], r) else none
    | [] => none

/-- One quoted key, colon, value. -/
def parseKV : Nat → List Char → Option ((String × J) × List Char)
  | 0, _ => none
  | fuel + 1, cs =>
    match skipJsonWs cs with
    | '"' :: r =>
      match parseStrBody (fuel + 1) [] r with
      | none => none
      | some (k, r2) =>
        match skipJsonWs r2 with
        | ':' :: r3 =>
          match parseVal fuel r3 with
          | none => none
          | some (v, r4) => some ((k, v), r4)
        | _ => none
    | _ => none

end

/-- The json.loads of a whole text: one value plus trailing whitespace. -/
def jsonLoads (s : String) : Option J :=
  match parseVal (2 * s.data.length + 8) s.data with
  | some (v, rest) => if (skipJsonWs rest).isEmpty then some v else none
  | none => none

/-- One entry of metadata.task_list. -/
structure TaskEntry where
  task : String
  status : String
deriving DecidableEq

/-- Validation of one parsed element (loop.py lines 748-752): keep it
when it is a dict carrying both a task and a status key; the task value
is stringified and truncated to 80 characters; a status outside the
three allowed values is coerced to pending. -/
def validateOne : J → Option TaskEntry
  | J.obj kvs =>
    match kvs.lookup "task", kvs.lookup "status" with
    | some tv, some sv =>
      some { task := pySlice 80 (pyStr tv),
             status :=
               match sv with
               | J.str s =>
                 if s = "pending" ∨ s = "in_progress" ∨ s = "completed"
                 then s else "pending"
               | _ => "pending" }
    | _, _ => none
  | _ => none

/-- The validation loop of _update_task_list (loop.py lines 746-752):
the first 10 elements, each validated. -/
def validateTasks (items : List J) : List TaskEntry :=
  (items.take 10).filterMap validateOne

/-- The AgentLoop._update_task_list effect (loop.py lines 684-756) reduced to its
effect on session.metadata["task_list"]: llmText is the stripped-off
content of the secondary LLM call, none when that call raised. The
prompt text does not influence the result, and the POST to the Frappe
endpoint does not touch session state. Failure at any step (LLM call,
span extraction, JSON parse, non-array JSON) silently leaves the old
list in place. -/
def updateTaskList (old : List TaskEntry) (llmText : Option String) :
    List TaskEntry :=
  match llmText with
  | none => old
  | some text =>
    match extractSpan (pyStrip text) with
    | none => old
    | some span =>
      match jsonLoads span with
      | some (J.arr items) => validateTasks items
      | _ => old

theorem pySlice_length_le (n : Nat) (s : String) :
    (pySlice n s).length ≤ n := by
  have h : (pySlice n s).length = (s.data.take n).length := rfl
  rw [h, List.length_take]
  omega

theorem validateTasks_length_le (items : List J) :
    (validateTasks items).length ≤ 10 := by
  have h1 : (validateTasks items).length ≤ (items.take 10).length :=
    List.length_filterMap_le _ _
  have h2 : (items.take 10).length ≤ 10 := by
    rw [List.length_take]; omega
  omega

theorem validateTasks_entry_shape (items : List J) (e : TaskEntry)
    (he : e ∈ validateTasks items) :
    e.task.length ≤ 80 ∧
    (e.status = "pending" ∨ e.status = "in_progress" ∨
      e.status = "completed") := by
  simp only [validateTasks, List.mem_filterMap] at he
  obtain ⟨t, -, hf⟩ := he
  cases t with
  | obj kvs =>
    simp only [validateOne] at hf
    cases hT : kvs.lookup "task" with
    | none => rw [hT] at hf; simp at hf
    | some tv =>
      cases hS : kvs.lookup "status" with
      | none => rw [hT, hS] at hf; simp at hf
      | some sv =>
        rw [hT, hS] at hf
        simp only [Option.some.injEq] at hf
        subst hf
        refine ⟨pySlice_length_le 80 _, ?_⟩
        cases sv with
        | str s =>
          by_cases hmem : s = "pending" ∨ s = "in_progress" ∨ s = "completed"
          · simp [hmem]
          · simp [hmem]
        | null => simp
        | bool b => simp
        | num n => simp
        | arr xs => simp
        | obj f => simp
  | null => simp [validateOne] at hf
  | bool b => simp [validateOne] at hf
  | num n => simp [validateOne] at hf
  | str s => simp [validateOne] at hf
  | arr xs => simp [validateOne] at hf

/-- C5 (amended) — a task-list update replaces the list with the
validated parse result exactly when the whole pipeline succeeds (the
LLM call returned text whose stripped form yields a greedy
first-bracket-to-last-bracket span that parses as a JSON array); on
failure at any step the list is left unchanged; a validated list has at
most 10 entries, each with a task of at most 80 characters (the task
value is stringified, not required to be a string) and a status among
pending, in_progress, completed. -/
theorem c5_task_list_update (old : List TaskEntry) (llmText : Option String) :
    (∀ text span items, llmText = some text →
      extractSpan (pyStrip text) = some span →
      jsonLoads span = some (J.arr items) →
      updateTaskList old llmText = validateTasks items) ∧
    ((¬ ∃ text span items, llmText = some text ∧
        extractSpan (pyStrip text) = some span ∧
        jsonLoads span = some (J.arr items)) →
      updateTaskList old llmText = old) ∧
    (∀ items, (validateTasks items).length ≤ 10) ∧
    (∀ items e, e ∈ validateTasks items → e.task.length ≤ 80 ∧
      (e.status = "pending" ∨ e.status = "in_progress" ∨
        e.status = "completed")) := by
  refine ⟨?_, ?_, fun items => validateTasks_length_le items,
    fun items e he => validateTasks_entry_shape items e he⟩
  · intro text span items h1 h2 h3
    subst h1
    simp [updateTaskList, h2, h3]
  · intro hne
    cases llmText with
    | none => rfl
    | some text =>
      cases hsp : extractSpan (pyStrip text) with
      | none => simp [updateTaskList, hsp]
      | some span =>
        cases hjl : jsonLoads span with
        | none => simp [updateTaskList, hsp, hjl]
        | some v =>
          cases v with
          | arr items => exact absurd ⟨text, span, items, rfl, hsp, hjl⟩ hne
          | null => simp [updateTaskList, hsp, hjl]
          | bool b => simp [updateTaskList, hsp, hjl]
          | num n => simp [updateTaskList, hsp, hjl]
          | str s => simp [updateTaskList, hsp, hjl]
          | obj kvs => simp [updateTaskList, hsp, hjl]

theorem c5_task_list_update_witness :
    (some "[]" = some "[]" ∧ extractSpan (pyStrip "[]") = some "[]" ∧
     jsonLoads "[]" = some (J.arr []) ∧
     (¬ ∃ text span items, some "no tasks here" = some text ∧
        extractSpan (pyStrip text) = some span ∧
        jsonLoads span = some (J.arr items))) ∧
    updateTaskList [{ task := "t1", status := "pending" }] (some "[]") =
      validateTasks [] ∧
    updateTaskList [{ task := "t1", status := "pending" }]
        (some "no tasks here") = [{ task := "t1", status := "pending" }] ∧
    (validateTasks [J.obj [("task", J.str "abc"),
        ("status", J.str "completed")]]).length ≤ 10 ∧
    ({ task := "abc", status := "completed" : TaskEntry } ∈
      validateTasks [J.obj [("task", J.str "abc"),
                            ("status", J.str "completed")]]) :=
  ⟨⟨rfl, by decide, rfl,
    by
      rintro ⟨text, span, items, heq, hsp, hjl⟩
      injection heq with heq2
      subst heq2
      rw [show extractSpan (pyStrip "no tasks here") = none from by decide]
        at hsp
      exact Option.noConfusion hsp⟩,
   (c5_task_list_update [{ task := "t1", status := "pending" }]
      (some "[]")).1 "[]" "[]" [] rfl (by decide) rfl,
   (c5_task_list_update [{ task := "t1", status := "pending" }]
      (some "no tasks here")).2.1
     (by
       rintro ⟨text, span, items, heq, hsp, hjl⟩
       injection heq with heq2
       subst heq2
       rw [show extractSpan (pyStrip "no tasks here") = none from by decide]
         at hsp
       exact Option.noConfusion hsp),
   (c5_task_list_update [] none).2.2.1 _,
   by decide⟩

/-- C5 counterexample — the element with task = 42 (a number, not a
string) is not dropped by validation: the code only checks key
presence and stringifies, so the update yields task "42"; under the
claim, validation requires a string task. -/
theorem c5_counterexample :
    updateTaskList []
        (some "[\x7b\"task\": 42, \"status\": \"done\"\x7d]") =
      [{ task := "42", status := "pending" }] ∧
    jsonLoads "[\x7b\"task\": 42, \"status\": \"done\"\x7d]" =
      some (J.arr [J.obj [("task", J.num 42), ("status", J.str "done")]]) := by
  constructor
  · decide
  · rfl

end Nanobot
